import Mathlib

/-!
Verification of the cascading dropdown / form-validation logic of the
Azure SQL DB deployment wizard (AzureSettingsPage), of the wizard HTTP
helper (DeployAzureSQLDBWizard.getRequest), and of the notebook-content
predicate (isNotebookContent).

The TypeScript source is embedded shallowly: the mutable page/wizard
state becomes an explicit state record, each populate function and each
onValueChanged handler becomes a state-passing function that also emits
a trace of observable events (fetches, error display), and the host
environment (credential store, resource provider, HTTP) is a record of
responses passed in as a parameter.  JavaScript property accesses that
can raise a TypeError are modelled with Except.
-/

/-! ## String utilities

The built-in String order and String.toLower do not reduce inside
the kernel, so string comparison, lower-casing and substring search are
defined here over the underlying character lists.  toLocaleLowerCase is
modelled as ASCII lower-casing and localeCompare as code-unit
comparison of the lower-cased strings; resource names in the claims are
ASCII, where the two coincide. -/

def asciiLower (c : Char) : Char :=
  if ('A' ≤ c ∧ c ≤ 'Z') then Char.ofNat (c.toNat + 32) else c

/-- Model of JavaScript toLocaleLowerCase restricted to ASCII. -/
def jsToLower (s : String) : String := String.mk (s.data.map asciiLower)

/-- Lexicographic comparison of character lists by code point; models the
ordering induced by the localeCompare comparator used in the source sorts. -/
def lexLE : List Char → List Char → Bool
| [], _ => true
| _ :: _, [] => false
| a :: as, b :: bs => if a < b then true else if b < a then false else lexLE as bs

/-- Case-insensitive comparison of two names, as in the comparator
(a, b) => a.name.toLocaleLowerCase().localeCompare(b.name.toLocaleLowerCase()). -/
def nameLE (a b : String) : Bool := lexLE (jsToLower a).data (jsToLower b).data

/-- Whether the pattern list is an initial segment of the list. -/
def leadsWith [DecidableEq α] : List α → List α → Bool
| [], _ => true
| _ :: _, [] => false
| p :: ps, x :: xs => if p = x then leadsWith ps xs else false

/-- The suffix strictly after the first occurrence of the pattern, if any. -/
def afterFirst (pat : List Char) : List Char → Option (List Char)
| [] => if pat.isEmpty then some [] else none
| c :: cs =>
  if leadsWith pat (c :: cs) then some ((c :: cs).drop pat.length)
  else afterFirst pat cs

/-- Everything strictly before the first occurrence of the pattern
(the whole list when the pattern does not occur). -/
def beforeFirst (pat : List Char) : List Char → List Char
| [] => []
| c :: cs =>
  if leadsWith pat (c :: cs) then []
  else c :: beforeFirst pat cs

/-- JavaScript Array.prototype.join with a separator. -/
def joinWith (sep : String) : List String → String
| [] => ""
| [s] => s
| s :: rest => s ++ sep ++ joinWith sep rest

/-! ## Resource group extraction

Embeds the pair of regex replacements applied to the server resource id:

  .replace(RegExp(str1), '').replace(RegExp(str2), '')

where str1 is the anchored non-greedy pattern removing everything up to
and including the first occurrence of the /resourceGroups/ marker and
str2 removes everything from the first occurrence of the /providers/
marker to the end.  Azure resource ids contain no newline characters,
so the dot-does-not-match-newline subtlety of the regexes is moot. -/

def resourceGroupsMarker : String := "/resourceGroups/"

def providersMarker : String := "/providers/"

def extractResourceGroup (id : String) : String :=
  let afterRG : List Char :=
    match afterFirst resourceGroupsMarker.data id.data with
    | some rest => rest
    | none => id.data
  String.mk (beforeFirst providersMarker.data afterRG)

/-! ## Data model -/

/-- A dropdown entry: azdata.CategoryValue. -/
structure CategoryValue where
  displayName : String
  name : String
deriving DecidableEq

/-- Display info of an azdata.Account. -/
structure AccountDisplayInfo where
  displayName : String
deriving DecidableEq

/-- An azdata.Account, reduced to the fields the page reads. -/
structure Account where
  displayInfo : AccountDisplayInfo
deriving DecidableEq

/-- An azureResource.AzureResourceSubscription, reduced to the fields read. -/
structure Subscription where
  name : String
  id : String
  tenant : String
deriving DecidableEq

/-- One element of the value array of the server-list REST response. -/
structure ServerInfo where
  name : String
  id : String
deriving DecidableEq

/-- Modelled from the spec: the host dropdown component.  Replacing the
values list gives the field a default (first) selection, per the spec of
the Field Loader ("the Selection Store is updated with a default (first)
selection"); an empty list leaves no selectable value. -/
structure Dropdown where
  values : List CategoryValue
  value : Option CategoryValue
deriving DecidableEq

/-- Modelled from the spec: replacing the values of a dropdown component; the
displayed selection becomes the first entry (none when the list is empty). -/
def setDropdownValues (d : Dropdown) (vs : List CategoryValue) : Dropdown :=
  { d with values := vs, value := vs.head? }

/-- The fields of DeployAzureSQLDBWizardModel written by this page.
Fields start undefined (none); the misspelling azureResouceGroup is the
source field name. -/
structure WizardModel where
  azureAccount : Option Account
  securityToken : Option String
  azureSubscription : Option String
  azureSubscriptionDisplayName : Option String
  azureServerName : Option String
  azureResouceGroup : Option String
deriving DecidableEq

/-- The mutable state of AzureSettingsPage together with the wizard model
and the wizard-level error message line. -/
structure PageState where
  azureAccountsDropdown : Dropdown
  azureSubscriptionsDropdown : Dropdown
  serverGroupDropdown : Dropdown
  accountsMap : List (String × Account)
  subscriptionsMap : List (String × Subscription)
  model : WizardModel
  accountsLoading : Bool
  subscriptionsLoading : Bool
  serversLoading : Bool
  errorMessage : String
  liveValidation : Bool
deriving DecidableEq

/-- Responses of the external collaborators (credential store, resource
provider, management REST endpoint, token service) for one settling of
the cascade. -/
structure Env where
  accounts : List Account
  subscriptions : Option (List Subscription)
  serverResponse : List ServerInfo
  token : String
deriving DecidableEq

/-- Observable events emitted while the page code runs. -/
inductive PageEvent where
| fetchAccounts : PageEvent
| fetchSubscriptions : PageEvent
| fetchServers : PageEvent
| getSecurityToken : PageEvent
| showError : String → PageEvent
| enterPopulateServers : PageEvent
deriving DecidableEq

/-- A trace entry pairs an event with the state at the moment it is emitted. -/
def Trace : Type := List (PageEvent × PageState)

/-- JavaScript Map.prototype.set on an association list: replaces the
value at an existing key in place, otherwise appends. -/
def mapSet [DecidableEq κ] (m : List (κ × α)) (k : κ) (v : α) : List (κ × α) :=
  match m with
  | [] => [(k, v)]
  | (k0, v0) :: rest =>
    if k0 = k then (k0, v) :: rest else (k0, v0) :: mapSet rest k v

/-- JavaScript Map.prototype.get on an association list. -/
def mapGet [DecidableEq κ] (m : List (κ × α)) (k : κ) : Option α :=
  match m with
  | [] => none
  | (k0, v0) :: rest => if k0 = k then some v0 else mapGet rest k

/-! ## Validator and navigation validator -/

def noServersSentinel : String := "No servers found"

def noServersError : String :=
  "No servers found in current subscription.\nSelect a different subscription containing at least one server"

/-- AzureSettingsPage.formValidation.  Reads the display name of the
server dropdown value (a TypeError, modelled as Except.error, when the
value is undefined), collects error messages, shows the joined message
on the wizard, and returns the joined message. -/
def formValidation (s : PageState) : Except Unit (String × PageState) :=
  match s.serverGroupDropdown.value with
  | none => Except.error ()
  | some serverVal =>
    let errorList : List String :=
      if serverVal.displayName = noServersSentinel then [noServersError] else []
    let joined := joinWith ("\n") errorList
    Except.ok (joined, { s with errorMessage := joined })

/-- The joined validation message, when formValidation does not throw. -/
def formValidationMsg (s : PageState) : Option String :=
  match formValidation s with
  | Except.error _ => none
  | Except.ok (m, _) => some m

/-- Page-change info passed to the navigation validator. -/
structure PageChangeInfo where
  newPage : Nat
  lastPage : Nat
deriving DecidableEq

/-- The navigation validator registered by AzureSettingsPage.onEnter:
backward navigation (newPage < lastPage) returns true at once; otherwise
liveValidation is set and the result of formValidation decides the
outcome (false exactly when the message is non-empty). -/
def navigationValidator (pc : PageChangeInfo) (s : PageState) :
    Except Unit (Bool × PageState) :=
  if pc.newPage < pc.lastPage then
    Except.ok (true, s)
  else
    let s1 := { s with liveValidation := true }
    match formValidation s1 with
    | Except.error e => Except.error e
    | Except.ok (msg, s2) => Except.ok ((msg == ""), s2)

/-! ## Field loaders (populate functions)

Each populate function returns the new state together with the trace of
events emitted, each event paired with the state at the moment of
emission.  The functions are total: every JavaScript property access
they perform is guarded in the source (undefined checks), so no
TypeError branch arises. -/

/-- The comparator relation of the subscription sort. -/
def subRel (a b : Subscription) : Prop := nameLE a.name b.name = true

instance : DecidableRel subRel :=
  fun a b => instDecidableEqBool (nameLE a.name b.name) true

/-- The CategoryValue built for one subscription: displayName is
name - id, name is the subscription id. -/
def subscriptionCategoryValue (sub : Subscription) : CategoryValue :=
  { displayName := sub.name ++ (" - ") ++ sub.id, name := sub.id }

/-- The CategoryValue built for one account (displayName used for both fields). -/
def accountCategoryValue (account : Account) : CategoryValue :=
  { displayName := account.displayInfo.displayName
    name := account.displayInfo.displayName }

/-- The CategoryValue built for one server-list entry. -/
def serverCategoryValue (v : ServerInfo) : CategoryValue :=
  { displayName := v.name, name := v.id }

/-- AzureSettingsPage.populateServerGroupDropdown.  Reads the current
subscription dropdown value; when it is undefined or has an empty
display name the server dropdown values are emptied and the function
returns before any request.  Otherwise the versioned REST call is
issued (event fetchServers); an empty value array yields exactly the
sentinel entry and an early return, and a non-empty one replaces the
dropdown values in response order and records the default selection in
the wizard model, deriving the resource group from the selected id. -/
def populateServerGroupDropdown (env : Env) (s : PageState) :
    PageState × List (PageEvent × PageState) :=
  let s1 := { s with serversLoading := true }
  let tr0 : List (PageEvent × PageState) := [(PageEvent.enterPopulateServers, s1)]
  match s1.azureSubscriptionsDropdown.value with
  | none =>
    let s2 := { s1 with
      serverGroupDropdown := setDropdownValues s1.serverGroupDropdown []
      serversLoading := false }
    (s2, tr0)
  | some subVal =>
    if subVal.displayName = "" then
      let s2 := { s1 with
        serverGroupDropdown := setDropdownValues s1.serverGroupDropdown []
        serversLoading := false }
      (s2, tr0)
    else
      let tr1 := tr0 ++ [(PageEvent.fetchServers, s1)]
      match env.serverResponse with
      | [] =>
        let sentinelEntry : CategoryValue := { displayName := noServersSentinel, name := "" }
        let s2 := { s1 with
          serverGroupDropdown := setDropdownValues s1.serverGroupDropdown [sentinelEntry]
          serversLoading := false }
        (s2, tr1)
      | v0 :: vrest =>
        let newValues := (v0 :: vrest).map serverCategoryValue
        let s2 := { s1 with serverGroupDropdown := setDropdownValues s1.serverGroupDropdown newValues }
        match s2.serverGroupDropdown.value with
        | some sel =>
          let s3 := { s2 with
            model := { s2.model with
              azureServerName := some sel.displayName
              azureResouceGroup := some (extractResourceGroup sel.name) }
            serversLoading := false }
          (s3, tr1)
        | none =>
          -- unreachable: newValues is non-empty so the default selection exists
          ({ s2 with serversLoading := false }, tr1)

/-- AzureSettingsPage.populateAzureSubscriptionsDropdown.  When the
account dropdown value is undefined the function only resets the
loading flag and chains into the server reload.  Otherwise the
getSubscriptions call is issued (event fetchSubscriptions); an
undefined or empty result empties the subscription dropdown and still
chains into the server reload; a non-empty one is sorted
case-insensitively by name, mapped to category values (recording each
subscription in the map), the default selection is written to the
wizard model, the security token is fetched, and the server reload
chains. -/
def populateAzureSubscriptionsDropdown (env : Env) (s : PageState) :
    PageState × List (PageEvent × PageState) :=
  let s1 := { s with subscriptionsLoading := true }
  match s1.azureAccountsDropdown.value with
  | none =>
    let s2 := { s1 with subscriptionsLoading := false }
    populateServerGroupDropdown env s2
  | some _acctVal =>
    let tr1 : List (PageEvent × PageState) := [(PageEvent.fetchSubscriptions, s1)]
    match env.subscriptions with
    | none =>
      let s2 := { s1 with
        azureSubscriptionsDropdown := setDropdownValues s1.azureSubscriptionsDropdown []
        subscriptionsLoading := false }
      let res := populateServerGroupDropdown env s2
      (res.fst, tr1 ++ res.snd)
    | some [] =>
      let s2 := { s1 with
        azureSubscriptionsDropdown := setDropdownValues s1.azureSubscriptionsDropdown []
        subscriptionsLoading := false }
      let res := populateServerGroupDropdown env s2
      (res.fst, tr1 ++ res.snd)
    | some (sub0 :: subrest) =>
      let sorted := List.insertionSort subRel (sub0 :: subrest)
      let newValues := sorted.map subscriptionCategoryValue
      let newMap := sorted.foldl (fun m sub => mapSet m sub.id sub) s1.subscriptionsMap
      let s2 := { s1 with
        azureSubscriptionsDropdown := setDropdownValues s1.azureSubscriptionsDropdown newValues
        subscriptionsMap := newMap }
      match s2.azureSubscriptionsDropdown.value with
      | some sel =>
        let s3 := { s2 with
          model := { s2.model with
            azureSubscription := some sel.name
            azureSubscriptionDisplayName := some sel.displayName } }
        let tr2 := tr1 ++ [(PageEvent.getSecurityToken, s3)]
        let s4 := { s3 with
          model := { s3.model with securityToken := some env.token }
          subscriptionsLoading := false }
        let res := populateServerGroupDropdown env s4
        (res.fst, tr2 ++ res.snd)
      | none =>
        -- unreachable: newValues is non-empty so the default selection exists
        let res := populateServerGroupDropdown env { s2 with subscriptionsLoading := false }
        (res.fst, tr1 ++ res.snd)

/-- The message shown when the credential store has no accounts. -/
def signInFirstMessage : String := "Sign in to an Azure account first"

/-- AzureSettingsPage.populateAzureAccountsDropdown.  Fetches the
accounts (event fetchAccounts); an empty list shows the sign-in warning
and returns at once, leaving every other field (and the loading flag,
as in the source) untouched.  Otherwise the warning is cleared, the
account values replace the dropdown contents in provider order
(recording each account in the map), the first account is written to
the model, and the subscription reload chains. -/
def populateAzureAccountsDropdown (env : Env) (s : PageState) :
    PageState × List (PageEvent × PageState) :=
  let s1 := { s with accountsLoading := true }
  let tr0 : List (PageEvent × PageState) := [(PageEvent.fetchAccounts, s1)]
  match env.accounts with
  | [] =>
    let s2 := { s1 with errorMessage := signInFirstMessage }
    (s2, tr0 ++ [(PageEvent.showError signInFirstMessage, s2)])
  | a0 :: arest =>
    let s2 := { s1 with errorMessage := "" }
    let tr1 := tr0 ++ [(PageEvent.showError (""), s2)]
    let newValues := (a0 :: arest).map accountCategoryValue
    let newMap := (a0 :: arest).foldl
      (fun m account => mapSet m account.displayInfo.displayName account) s1.accountsMap
    let s3 := { s2 with
      azureAccountsDropdown := setDropdownValues s2.azureAccountsDropdown newValues
      accountsMap := newMap }
    let s4 := { s3 with
      model := { s3.model with azureAccount := some a0 }
      accountsLoading := false }
    let res := populateAzureSubscriptionsDropdown env s4
    (res.fst, tr1 ++ res.snd)

/-! ## User-selection handlers -/

/-- The onValueChanged handler of the accounts dropdown: stores the
account resolved through the accounts map (undefined when the key is
missing, as with the non-null assertion in the source) and triggers the
subscription reload. -/
def onAccountSelected (env : Env) (selected : String) (s : PageState) :
    PageState × List (PageEvent × PageState) :=
  let s1 := { s with model := { s.model with azureAccount := mapGet s.accountsMap selected } }
  populateAzureSubscriptionsDropdown env s1

/-- The onValueChanged handler of the subscriptions dropdown: reads the
current dropdown value (TypeError when undefined), stores id and
display name in the model, fetches the security token and triggers the
server reload. -/
def onSubscriptionSelected (env : Env) (s : PageState) :
    Except Unit (PageState × List (PageEvent × PageState)) :=
  match s.azureSubscriptionsDropdown.value with
  | none => Except.error ()
  | some v =>
    let s1 := { s with
      model := { s.model with
        azureSubscription := some v.name
        azureSubscriptionDisplayName := some v.displayName } }
    let tr1 : List (PageEvent × PageState) := [(PageEvent.getSecurityToken, s1)]
    let s2 := { s1 with model := { s1.model with securityToken := some env.token } }
    let res := populateServerGroupDropdown env s2
    Except.ok (res.fst, tr1 ++ res.snd)

/-- The onValueChanged handler of the server dropdown: reads the current
dropdown value (TypeError when undefined) and, when the user selection
matches its display name, stores the server name and the resource group
extracted from the resource id. -/
def onServerSelected (selected : String) (s : PageState) : Except Unit PageState :=
  match s.serverGroupDropdown.value with
  | none => Except.error ()
  | some v =>
    if selected = v.displayName then
      Except.ok { s with
        model := { s.model with
          azureServerName := some v.displayName
          azureResouceGroup := some (extractResourceGroup v.name) } }
    else
      Except.ok s

/-! ## HTTP helper (DeployAzureSQLDBWizard.getRequest)

The axios client is embedded through its documented contract: a
response whose status fails the validateStatus test of the request
configuration is raised as an error, any other response is returned. -/

/-- An HTTP response as seen through axios. -/
structure AxiosResponse where
  status : Nat
  body : String
deriving DecidableEq

/-- The axios request configuration fields built by getRequest. -/
structure AxiosRequestConfig where
  headers : List (String × String)
  validateStatus : Nat → Bool

/-- Axios GET against an abstract transport: the transport maps a URL to
a response, and the response is rejected exactly when validateStatus
answers false on its status. -/
def axiosGet (transport : String → AxiosResponse) (url : String)
    (config : AxiosRequestConfig) : Except AxiosResponse AxiosResponse :=
  let response := transport url
  if config.validateStatus response.status then Except.ok response
  else Except.error response

/-- DeployAzureSQLDBWizard.getRequest: bearer-token GET whose
configuration sets validateStatus to the constantly-true function. -/
def getRequest (transport : String → AxiosResponse) (token : String)
    (url : String) : Except AxiosResponse AxiosResponse :=
  let config : AxiosRequestConfig :=
    { headers :=
        [(("Content-Type"), ("application/json")),
         (("Authorization"), ("Bearer ") ++ token)]
      validateStatus := fun _ => true }
  axiosGet transport url config

/-! ## Notebook-content predicate (isNotebookContent)

JSON values as produced by JSON.parse are embedded as an inductive
type; the parser itself is the JavaScript runtime and is passed in as
an abstract function returning none when JSON.parse throws.  Property
access on the parsed document follows JavaScript semantics: access on
null raises a TypeError (caught by the try block of the source),
access on any other non-object value yields undefined, and typeof
classifies null, arrays and objects alike as object. -/

inductive JSValue where
| null : JSValue
| bool : Bool → JSValue
| num : Int → JSValue
| str : String → JSValue
| arr : List JSValue → JSValue
| obj : List (String × JSValue) → JSValue

/-- Field lookup among the key-value pairs of a parsed object (JSON.parse
keeps one binding per key). -/
def lookupField (k : String) : List (String × JSValue) → Option JSValue
| [] => none
| (k0, v) :: rest => if k0 = k then some v else lookupField k rest

/-- JavaScript property access doc[k]: TypeError on null, the field or
undefined on an object, undefined on every other value. -/
def jsProp (doc : JSValue) (k : String) : Except Unit (Option JSValue) :=
  match doc with
  | JSValue.null => Except.error ()
  | JSValue.obj fields => Except.ok (lookupField k fields)
  | _ => Except.ok none

/-- Whether typeof of a possibly-undefined value is the string object. -/
def jsTypeofObject : Option JSValue → Bool
| none => false
| some JSValue.null => true
| some (JSValue.arr _) => true
| some (JSValue.obj _) => true
| some _ => false

/-- Whether typeof of a possibly-undefined value is the string number. -/
def jsTypeofNumber : Option JSValue → Bool
| some (JSValue.num _) => true
| _ => false

/-- isNotebookContent from the postgres overview page module: parses the
document (false when JSON.parse throws), then checks the typeof of the
metadata, nbformat, nbformat_minor and cells properties; a TypeError
during the checks (access on a null document) is caught and yields
false. -/
def isNotebookContent (parse : String → Option JSValue)
    (documentContent : String) : Bool :=
  match parse documentContent with
  | none => false
  | some doc =>
    match jsProp doc ("metadata"), jsProp doc ("nbformat"),
          jsProp doc ("nbformat_minor"), jsProp doc ("cells") with
    | Except.ok m, Except.ok f, Except.ok fm, Except.ok c =>
      jsTypeofObject m && jsTypeofNumber f && jsTypeofNumber fm && jsTypeofObject c
    | _, _, _, _ => false

/-- Total field access used to state the characterization: the field of
an object, none (no such field) on every other document shape. -/
def docGet (doc : JSValue) (k : String) : Option JSValue :=
  match doc with
  | JSValue.obj fields => lookupField k fields
  | _ => none

/-! ## Order lemmas for the subscription sort -/

lemma lexLE_total : ∀ x y : List Char, lexLE x y = true ∨ lexLE y x = true := by
  intro x
  induction x with
  | nil => intro y; left; rfl
  | cons a as ih =>
    intro y
    cases y with
    | nil => right; rfl
    | cons b bs =>
      rcases lt_trichotomy a b with h | h | h
      · left; simp [lexLE, h]
      · subst h
        rcases ih bs with h2 | h2
        · left; simp [lexLE, lt_irrefl, h2]
        · right; simp [lexLE, lt_irrefl, h2]
      · right; simp [lexLE, h]

lemma lexLE_trans : ∀ x y z : List Char,
    lexLE x y = true → lexLE y z = true → lexLE x z = true := by
  intro x
  induction x with
  | nil => intro y z _ _; rfl
  | cons a as ih =>
    intro y z h1 h2
    cases y with
    | nil => simp [lexLE] at h1
    | cons b bs =>
      cases z with
      | nil => simp [lexLE] at h2
      | cons c cs =>
        rcases lt_trichotomy a b with hab | hab | hab
        · rcases lt_trichotomy b c with hbc | hbc | hbc
          · have : a < c := lt_trans hab hbc
            simp [lexLE, this]
          · subst hbc; simp [lexLE, hab]
          · simp [lexLE, hbc, lt_asymm hbc] at h2
        · subst hab
          rcases lt_trichotomy a c with hac | hac | hac
          · simp [lexLE, hac]
          · subst hac
            simp only [lexLE, lt_irrefl, if_false] at h1 h2 ⊢
            exact ih bs cs h1 h2
          · simp [lexLE, hac, lt_asymm hac] at h2
        · simp [lexLE, hab, lt_asymm hab] at h1

instance : IsTotal Subscription subRel := by
  constructor
  intro a b
  unfold subRel nameLE
  rcases lexLE_total (jsToLower a.name).data (jsToLower b.name).data with h | h
  · exact Or.inl h
  · exact Or.inr h

instance : IsTrans Subscription subRel := by
  constructor
  intro a b c h1 h2
  exact lexLE_trans _ _ _ h1 h2

/-! ## Preservation helpers for the populate chain -/

lemma populateServer_subsDropdown (env : Env) (s : PageState) :
    (populateServerGroupDropdown env s).fst.azureSubscriptionsDropdown
      = s.azureSubscriptionsDropdown := by
  simp only [populateServerGroupDropdown]
  repeat' split
  all_goals rfl

lemma populateServer_acctsDropdown (env : Env) (s : PageState) :
    (populateServerGroupDropdown env s).fst.azureAccountsDropdown
      = s.azureAccountsDropdown := by
  simp only [populateServerGroupDropdown]
  repeat' split
  all_goals rfl

lemma populateServer_events (env : Env) (s : PageState) :
    ∀ p ∈ (populateServerGroupDropdown env s).snd,
      p.fst = PageEvent.enterPopulateServers ∨ p.fst = PageEvent.fetchServers := by
  intro p hp
  simp only [populateServerGroupDropdown] at hp
  repeat' split at hp
  all_goals simp only [List.mem_append, List.mem_singleton, List.mem_cons,
    List.not_mem_nil, or_false] at hp
  all_goals first
  | (rcases hp with hp | hp <;> (subst hp; simp))
  | (subst hp; simp)

/-! ## Resource group faithfulness (claim C5) -/

/-- After an operation taking the page from s1 to s2, the resource group
field is either untouched or is exactly the extraction of the resource
group from the identity of the currently selected server. -/
def rgFaithful (s1 s2 : PageState) : Prop :=
  s2.model.azureResouceGroup = s1.model.azureResouceGroup ∨
  ∃ v, s2.serverGroupDropdown.value = some v ∧
    s2.model.azureResouceGroup = some (extractResourceGroup v.name)

/-- rgFaithful lifted over a possibly-throwing handler result. -/
def rgFaithfulE (s1 : PageState) : Except Unit PageState → Prop
| Except.error _ => True
| Except.ok s2 => rgFaithful s1 s2

/-- rgFaithful lifted over a possibly-throwing handler result with trace. -/
def rgFaithfulET (s1 : PageState) :
    Except Unit (PageState × List (PageEvent × PageState)) → Prop
| Except.error _ => True
| Except.ok r => rgFaithful s1 r.fst

lemma rg_comp (s1 s2 r : PageState)
    (h : s2.model.azureResouceGroup = s1.model.azureResouceGroup)
    (h2 : rgFaithful s2 r) : rgFaithful s1 r := by
  rcases h2 with h2 | ⟨v, hv, hrg⟩
  · exact Or.inl (h2.trans h)
  · exact Or.inr ⟨v, hv, hrg⟩

lemma rg_populateServer (env : Env) (s : PageState) :
    rgFaithful s (populateServerGroupDropdown env s).fst := by
  simp only [populateServerGroupDropdown]
  repeat' split
  all_goals first
  | exact Or.inl rfl
  | (rename_i sel heq; exact Or.inr ⟨sel, heq, rfl⟩)

lemma rg_populateSubs (env : Env) (s : PageState) :
    rgFaithful s (populateAzureSubscriptionsDropdown env s).fst := by
  simp only [populateAzureSubscriptionsDropdown]
  repeat' split
  all_goals exact rg_comp _ _ _ rfl (rg_populateServer env _)

lemma rg_populateAccounts (env : Env) (s : PageState) :
    rgFaithful s (populateAzureAccountsDropdown env s).fst := by
  simp only [populateAzureAccountsDropdown]
  repeat' split
  all_goals first
  | exact Or.inl rfl
  | exact rg_comp _ _ _ rfl (rg_populateSubs env _)

lemma rg_onAccountSelected (env : Env) (selected : String) (s : PageState) :
    rgFaithful s (onAccountSelected env selected s).fst := by
  simp only [onAccountSelected]
  exact rg_comp _ _ _ rfl (rg_populateSubs env _)

lemma rg_onSubscriptionSelected (env : Env) (s : PageState) :
    rgFaithfulET s (onSubscriptionSelected env s) := by
  simp only [onSubscriptionSelected]
  split
  · exact True.intro
  · simp only [rgFaithfulET]
    exact rg_comp _ _ _ rfl (rg_populateServer env _)

lemma rg_onServerSelected (selected : String) (s : PageState) :
    rgFaithfulE s (onServerSelected selected s) := by
  simp only [onServerSelected]
  split
  · exact True.intro
  · rename_i v heq
    split
    · exact Or.inr ⟨v, heq, rfl⟩
    · exact Or.inl rfl

/-- The server id of the scenario fixed in the spec. -/
def exampleServerId : String :=
  "/subscriptions/X/resourceGroups/RG1/providers/Microsoft.Sql/servers/srv1"

/-! ## Concrete fixtures -/

def emptyDropdown : Dropdown := { values := [], value := none }

def initialModel : WizardModel :=
  { azureAccount := none, securityToken := none, azureSubscription := none,
    azureSubscriptionDisplayName := none, azureServerName := none,
    azureResouceGroup := none }

/-- The page state right after construction: every dropdown empty, maps
empty, model fields undefined. -/
def basePage : PageState :=
  { azureAccountsDropdown := emptyDropdown
    azureSubscriptionsDropdown := emptyDropdown
    serverGroupDropdown := emptyDropdown
    accountsMap := []
    subscriptionsMap := []
    model := initialModel
    accountsLoading := false
    subscriptionsLoading := false
    serversLoading := false
    errorMessage := ""
    liveValidation := false }

/-- A state whose server dropdown holds an ordinary (non-sentinel) server
while account and subscription are still unset. -/
def pageWithPlainServer : PageState :=
  { basePage with serverGroupDropdown :=
      { values := [{ displayName := ("srv1"), name := ("id1") }]
        value := some { displayName := ("srv1"), name := ("id1") } } }

def accountIsSet (s : PageState) : Bool := s.model.azureAccount.isSome

def subscriptionIsSet (s : PageState) : Bool := s.model.azureSubscription.isSome

def serverSetNonSentinel (s : PageState) : Bool :=
  match s.serverGroupDropdown.value with
  | none => false
  | some v => v.displayName != noServersSentinel

def sentinelCategoryValue : CategoryValue :=
  { displayName := noServersSentinel, name := "" }

/-! ## Claim C1 -/

/-- C1 counterexample: formValidation only inspects the server dropdown,
so a state with a plain server but no account and no subscription yields
an empty error message, refuting the claimed equivalence. -/
theorem formValidation_ignores_account_and_subscription :
    ¬ ((formValidationMsg pageWithPlainServer = some ("")) ↔
       (accountIsSet pageWithPlainServer && subscriptionIsSet pageWithPlainServer &&
        serverSetNonSentinel pageWithPlainServer) = true) := by
  decide

/-- C1 amended: whenever the server dropdown has a value, formValidation
returns the empty message exactly when that value is not the sentinel;
account and subscription are never examined (and with no server value
the validator throws instead of reporting). -/
theorem formValidation_empty_iff_not_sentinel (s : PageState) (v : CategoryValue)
    (h : s.serverGroupDropdown.value = some v) :
    formValidationMsg s = some ("") ↔ v.displayName ≠ noServersSentinel := by
  by_cases hd : v.displayName = noServersSentinel
  · simp only [formValidationMsg, formValidation, h, hd, if_pos rfl, joinWith]
    constructor
    · intro hcontra
      injection hcontra with he
      exact absurd he (by decide)
    · intro hcontra; exact absurd rfl hcontra
  · simp [formValidationMsg, formValidation, h, hd, joinWith]

/-- Witness for the C1 amended theorem at the concrete fixture. -/
theorem formValidation_empty_iff_not_sentinel_witness :
    formValidationMsg pageWithPlainServer = some ("") :=
  (formValidation_empty_iff_not_sentinel pageWithPlainServer
    { displayName := ("srv1"), name := ("id1") } rfl).mpr (by decide)

/-! ## Claim C2 -/

/-- C2: when the subscription value is set (non-empty display name) and
the server-list response has an empty value array, the server dropdown
afterwards holds exactly the sentinel entry with empty identity, and the
validator in that state produces the non-empty no-servers error. -/
theorem emptyServerResponse_sentinel_and_validation_blocks
    (env : Env) (s : PageState) (v : CategoryValue)
    (hval : s.azureSubscriptionsDropdown.value = some v)
    (hdn : v.displayName ≠ "")
    (hresp : env.serverResponse = []) :
    (populateServerGroupDropdown env s).fst.serverGroupDropdown.values
      = [sentinelCategoryValue] ∧
    formValidationMsg (populateServerGroupDropdown env s).fst = some noServersError ∧
    noServersError ≠ "" := by
  simp only [populateServerGroupDropdown, hval, hresp, hdn, if_neg hdn]
  refine ⟨rfl, ?_, by decide⟩
  simp [formValidationMsg, formValidation, setDropdownValues, sentinelCategoryValue, joinWith]

/-- A state whose subscription dropdown has a selected subscription. -/
def pageWithSubscription : PageState :=
  { basePage with azureSubscriptionsDropdown :=
      { values := [{ displayName := ("sub1 - sid1"), name := ("sid1") }]
        value := some { displayName := ("sub1 - sid1"), name := ("sid1") } } }

/-- An environment whose server-list response is empty. -/
def noServersEnv : Env :=
  { accounts := [], subscriptions := none, serverResponse := [], token := ("tok") }

/-- Witness for the C2 theorem at the concrete fixture. -/
theorem emptyServerResponse_sentinel_and_validation_blocks_witness :
    (populateServerGroupDropdown noServersEnv pageWithSubscription).fst.serverGroupDropdown.values
      = [sentinelCategoryValue] ∧
    formValidationMsg (populateServerGroupDropdown noServersEnv pageWithSubscription).fst
      = some noServersError ∧
    noServersError ≠ "" :=
  emptyServerResponse_sentinel_and_validation_blocks noServersEnv pageWithSubscription
    { displayName := ("sub1 - sid1"), name := ("sid1") } rfl (by decide) rfl

/-! ## Claim C5 -/

/-- C5: the extraction applied to the resource id of the spec scenario
yields exactly RG1, and along every operation of the page the resource
group field is only ever written as the extraction of the currently
selected server identity (never set independently). -/
theorem resourceGroup_pure_function_of_server_identity :
    extractResourceGroup exampleServerId = ("RG1") ∧
    (∀ env s, rgFaithful s (populateServerGroupDropdown env s).fst) ∧
    (∀ env s, rgFaithful s (populateAzureSubscriptionsDropdown env s).fst) ∧
    (∀ env s, rgFaithful s (populateAzureAccountsDropdown env s).fst) ∧
    (∀ env selected s, rgFaithful s (onAccountSelected env selected s).fst) ∧
    (∀ env s, rgFaithfulET s (onSubscriptionSelected env s)) ∧
    (∀ selected s, rgFaithfulE s (onServerSelected selected s)) :=
  ⟨by decide, rg_populateServer, rg_populateSubs, rg_populateAccounts,
   rg_onAccountSelected, rg_onSubscriptionSelected, rg_onServerSelected⟩

/-! ## Claim C8 -/

/-- C8: getRequest configures axios with a constantly-true validateStatus,
so for every transport, token and URL the response comes back unchanged
as a success, whatever its status code; no status is turned into a
raised error. -/
theorem getRequest_returns_response_for_all_statuses
    (transport : String → AxiosResponse) (token url : String) :
    getRequest transport token url = Except.ok (transport url) := rfl

/-! ## Claim C9 -/

/-- C9: the navigation validator registered on entering the page returns
true at once for every backward move (newPage below lastPage), touching
nothing; on a forward attempt it sets liveValidation, runs
formValidation, and blocks (returns false) exactly when the produced
message is non-empty. -/
theorem navigationValidator_backward_free_forward_blocks_on_error
    (pc : PageChangeInfo) (s : PageState) :
    (pc.newPage < pc.lastPage → navigationValidator pc s = Except.ok (true, s)) ∧
    (¬ pc.newPage < pc.lastPage → ∀ msg s2,
       formValidation { s with liveValidation := true } = Except.ok (msg, s2) →
       navigationValidator pc s = Except.ok ((msg == ""), s2)) := by
  constructor
  · intro h
    simp [navigationValidator, h]
  · intro h msg s2 hfv
    simp [navigationValidator, h, hfv]

/-- Witness for the C9 theorem: a backward move from page 1 to page 0 is
allowed untouched, and a forward move with a plain server selected is
allowed with liveValidation set. -/
theorem navigationValidator_backward_free_forward_blocks_on_error_witness :
    navigationValidator { newPage := 0, lastPage := 1 } pageWithPlainServer
      = Except.ok (true, pageWithPlainServer) ∧
    navigationValidator { newPage := 1, lastPage := 0 } pageWithPlainServer
      = Except.ok (true, { pageWithPlainServer with liveValidation := true }) := by
  constructor
  · exact (navigationValidator_backward_free_forward_blocks_on_error
      { newPage := 0, lastPage := 1 } pageWithPlainServer).1 (by decide)
  · have h := (navigationValidator_backward_free_forward_blocks_on_error
      { newPage := 1, lastPage := 0 } pageWithPlainServer).2 (by decide)
      ("") ({ pageWithPlainServer with liveValidation := true }) rfl
    simpa using h

/-! ## Claim C10 -/

/-- C10: isNotebookContent is a total boolean predicate, true exactly when
the document parses and its metadata and cells fields have JavaScript
type object while nbformat and nbformat_minor have type number; a parse
failure, a null document, or a missing or differently-typed field gives
false. -/
theorem isNotebookContent_characterization
    (parse : String → Option JSValue) (content : String) :
    isNotebookContent parse content = true ↔
    ∃ doc, parse content = some doc ∧
      (jsTypeofObject (docGet doc ("metadata")) &&
       jsTypeofNumber (docGet doc ("nbformat")) &&
       jsTypeofNumber (docGet doc ("nbformat_minor")) &&
       jsTypeofObject (docGet doc ("cells"))) = true := by
  cases hp : parse content with
  | none => simp [isNotebookContent, hp]
  | some doc =>
    have he : isNotebookContent parse content =
        (jsTypeofObject (docGet doc ("metadata")) &&
         jsTypeofNumber (docGet doc ("nbformat")) &&
         jsTypeofNumber (docGet doc ("nbformat_minor")) &&
         jsTypeofObject (docGet doc ("cells"))) := by
      simp only [isNotebookContent, hp]
      cases doc <;> rfl
    rw [he]
    constructor
    · intro h
      exact ⟨doc, rfl, h⟩
    · rintro ⟨doc2, hdoc2, h2⟩
      injection hdoc2 with he2
      rw [he2]
      exact h2

/-! ## More preservation helpers -/

lemma populateSubs_acctsDropdown (env : Env) (s : PageState) :
    (populateAzureSubscriptionsDropdown env s).fst.azureAccountsDropdown
      = s.azureAccountsDropdown := by
  simp only [populateAzureSubscriptionsDropdown]
  repeat' split
  all_goals rw [populateServer_acctsDropdown]

/-! ## Claim C7 -/

/-- A state whose accounts dropdown has a selected account. -/
def pageWithAccount : PageState :=
  { basePage with azureAccountsDropdown :=
      { values := [{ displayName := ("accA"), name := ("accA") }]
        value := some { displayName := ("accA"), name := ("accA") } } }

/-- C7: when the account value is present but getSubscriptions yields an
undefined or empty list, the subscription dropdown is left with no
values and no selectable value, the server reload is still entered, and
it resets the server values; the whole path is a total function (no
exception is raised). -/
theorem emptySubscriptions_clears_and_still_reloads_servers
    (env : Env) (s : PageState) (av : CategoryValue)
    (hacct : s.azureAccountsDropdown.value = some av)
    (hsubs : env.subscriptions = none ∨ env.subscriptions = some []) :
    (populateAzureSubscriptionsDropdown env s).fst.azureSubscriptionsDropdown.values = [] ∧
    (populateAzureSubscriptionsDropdown env s).fst.azureSubscriptionsDropdown.value = none ∧
    PageEvent.enterPopulateServers
      ∈ (populateAzureSubscriptionsDropdown env s).snd.map Prod.fst ∧
    (populateAzureSubscriptionsDropdown env s).fst.serverGroupDropdown.values = [] := by
  rcases hsubs with h | h
  · simp only [populateAzureSubscriptionsDropdown, hacct, h]
    refine ⟨rfl, rfl, ?_, rfl⟩
    simp [populateServerGroupDropdown, setDropdownValues]
  · simp only [populateAzureSubscriptionsDropdown, hacct, h]
    refine ⟨rfl, rfl, ?_, rfl⟩
    simp [populateServerGroupDropdown, setDropdownValues]

/-- Witness for the C7 theorem at the concrete fixture. -/
theorem emptySubscriptions_clears_and_still_reloads_servers_witness :
    (populateAzureSubscriptionsDropdown noServersEnv pageWithAccount).fst.azureSubscriptionsDropdown.values = [] ∧
    (populateAzureSubscriptionsDropdown noServersEnv pageWithAccount).fst.azureSubscriptionsDropdown.value = none ∧
    PageEvent.enterPopulateServers
      ∈ (populateAzureSubscriptionsDropdown noServersEnv pageWithAccount).snd.map Prod.fst ∧
    (populateAzureSubscriptionsDropdown noServersEnv pageWithAccount).fst.serverGroupDropdown.values = [] :=
  emptySubscriptions_clears_and_still_reloads_servers noServersEnv pageWithAccount
    { displayName := ("accA"), name := ("accA") } rfl (Or.inl rfl)

/-! ## Claim C6 -/

/-- C6 counterexample: the credential store returns no accounts, yet a
previously populated subscription dropdown keeps its entries; dependent
fields are not emptied by the account loader. -/
theorem emptyAccounts_dependents_not_cleared :
    noServersEnv.accounts = [] ∧
    (populateAzureAccountsDropdown noServersEnv pageWithSubscription).fst.azureSubscriptionsDropdown.values
      ≠ [] := by
  decide

/-- C6 amended: on an empty account list the loader shows the blocking
sign-in warning, issues no subscription (nor server) request, and leaves
the dependent fields and the model exactly unchanged - so they remain
empty when they were empty, as on the initial load. -/
theorem emptyAccounts_warning_no_fetch_dependents_unchanged
    (env : Env) (s : PageState) (h : env.accounts = []) :
    (populateAzureAccountsDropdown env s).fst.errorMessage = signInFirstMessage ∧
    signInFirstMessage ≠ "" ∧
    (populateAzureAccountsDropdown env s).fst.azureSubscriptionsDropdown
      = s.azureSubscriptionsDropdown ∧
    (populateAzureAccountsDropdown env s).fst.serverGroupDropdown
      = s.serverGroupDropdown ∧
    (populateAzureAccountsDropdown env s).fst.model = s.model ∧
    PageEvent.fetchSubscriptions ∉ (populateAzureAccountsDropdown env s).snd.map Prod.fst ∧
    PageEvent.fetchServers ∉ (populateAzureAccountsDropdown env s).snd.map Prod.fst := by
  simp only [populateAzureAccountsDropdown, h]
  refine ⟨trivial, by decide, trivial, trivial, trivial, ?_, ?_⟩ <;> simp

/-- Witness for the C6 amended theorem at the concrete fixture. -/
theorem emptyAccounts_warning_no_fetch_dependents_unchanged_witness :
    (populateAzureAccountsDropdown noServersEnv pageWithSubscription).fst.errorMessage
      = signInFirstMessage ∧
    signInFirstMessage ≠ "" ∧
    (populateAzureAccountsDropdown noServersEnv pageWithSubscription).fst.azureSubscriptionsDropdown
      = pageWithSubscription.azureSubscriptionsDropdown ∧
    (populateAzureAccountsDropdown noServersEnv pageWithSubscription).fst.serverGroupDropdown
      = pageWithSubscription.serverGroupDropdown ∧
    (populateAzureAccountsDropdown noServersEnv pageWithSubscription).fst.model
      = pageWithSubscription.model ∧
    PageEvent.fetchSubscriptions
      ∉ (populateAzureAccountsDropdown noServersEnv pageWithSubscription).snd.map Prod.fst ∧
    PageEvent.fetchServers
      ∉ (populateAzureAccountsDropdown noServersEnv pageWithSubscription).snd.map Prod.fst :=
  emptyAccounts_warning_no_fetch_dependents_unchanged noServersEnv pageWithSubscription rfl

/-! ## Claim C3 -/

/-- A page in mid-flight: an account, a subscription and a server are all
selected and recorded, and a second account is available to switch to. -/
def stalePage : PageState :=
  { basePage with
    azureAccountsDropdown :=
      { values := [{ displayName := ("accA"), name := ("accA") },
                   { displayName := ("accB"), name := ("accB") }]
        value := some { displayName := ("accA"), name := ("accA") } }
    azureSubscriptionsDropdown :=
      { values := [{ displayName := ("sub1 - sid1"), name := ("sid1") }]
        value := some { displayName := ("sub1 - sid1"), name := ("sid1") } }
    serverGroupDropdown :=
      { values := [{ displayName := ("oldSrv"), name := ("oldId") }]
        value := some { displayName := ("oldSrv"), name := ("oldId") } }
    accountsMap :=
      [(("accA"), { displayInfo := { displayName := ("accA") } }),
       (("accB"), { displayInfo := { displayName := ("accB") } })]
    model := { initialModel with
      azureAccount := some { displayInfo := { displayName := ("accA") } }
      azureSubscription := some ("sid1")
      azureSubscriptionDisplayName := some ("sub1 - sid1")
      azureServerName := some ("oldSrv") } }

/-- The environment answering the cascade caused by switching to accB. -/
def switchEnv : Env :=
  { accounts := []
    subscriptions := some [{ name := ("newSub"), id := ("nsid"), tenant := ("t1") }]
    serverResponse := [{ name := ("srvN"), id := ("/subscriptions/nsid/resourceGroups/RGN/providers/Microsoft.Sql/servers/srvN") }]
    token := ("tok") }

/-- C3 counterexample: switching the account from accA to accB issues the
subscriptions fetch while the old subscription id and the old server name
are still recorded - the downstream selections are not cleared before
the new fetch is issued. -/
theorem accountChange_stale_subscription_at_fetch :
    ¬ (∀ p ∈ (onAccountSelected switchEnv ("accB") stalePage).snd,
        (p.fst = PageEvent.fetchSubscriptions ∨ p.fst = PageEvent.fetchServers) →
        p.snd.model.azureSubscription = none ∧ p.snd.model.azureServerName = none) := by
  decide

/-- C3 amended: changing the account triggers the subscriptions reload,
which issues its fetch without first clearing the subscription or server
selections; at the moment the fetch is issued the subscription dropdown,
the server dropdown and the recorded subscription and server of the
model are all exactly as before the account change (stale values stay
observable until the fetch completes and repopulates the dropdowns). -/
theorem accountChange_downstream_unchanged_at_fetch
    (env : Env) (selected : String) (s : PageState) :
    ∀ p ∈ (onAccountSelected env selected s).snd,
      p.fst = PageEvent.fetchSubscriptions →
      p.snd.azureSubscriptionsDropdown = s.azureSubscriptionsDropdown ∧
      p.snd.serverGroupDropdown = s.serverGroupDropdown ∧
      p.snd.model.azureSubscription = s.model.azureSubscription ∧
      p.snd.model.azureServerName = s.model.azureServerName := by
  intro p hp hev
  simp only [onAccountSelected, populateAzureSubscriptionsDropdown] at hp
  repeat' split at hp
  all_goals
    try simp only [List.mem_append, List.mem_singleton] at hp
  all_goals
    repeat' rcases hp with hp | hp
  all_goals try exact ⟨rfl, rfl, rfl, rfl⟩
  all_goals try (refine absurd hev ?_; simp)
  all_goals try (rename_i hnil; exact absurd hnil (List.not_mem_nil p))
  all_goals rcases populateServer_events _ _ p hp with h | h <;>
    (rw [hev] at h; exact absurd h (by decide))

/-- The state at which the stale-fetch trace entry of the concrete
scenario is emitted: only the chosen account and the loading flag differ
from the pre-change state. -/
def staleFetchState : PageState :=
  { stalePage with
    model := { stalePage.model with
      azureAccount := some { displayInfo := { displayName := ("accB") } } }
    subscriptionsLoading := true }

/-- Witness for the C3 amended theorem at the concrete scenario. -/
theorem accountChange_downstream_unchanged_at_fetch_witness :
    staleFetchState.azureSubscriptionsDropdown = stalePage.azureSubscriptionsDropdown ∧
    staleFetchState.serverGroupDropdown = stalePage.serverGroupDropdown ∧
    staleFetchState.model.azureSubscription = stalePage.model.azureSubscription ∧
    staleFetchState.model.azureServerName = stalePage.model.azureServerName :=
  accountChange_downstream_unchanged_at_fetch switchEnv ("accB") stalePage
    (PageEvent.fetchSubscriptions, staleFetchState) (by decide) rfl

/-! ## Claim C4 -/

/-- The environment of the C4 counterexample: the server-list response
returns the names b then A. -/
def unsortedServersEnv : Env :=
  { accounts := []
    subscriptions := none
    serverResponse := [{ name := ("b"), id := ("idb") }, { name := ("A"), id := ("idA") }]
    token := ("tok") }

/-- C4 counterexample: servers are presented in response order (b before
A), which is not case-insensitively ascending - the server populate
performs no sort. -/
theorem servers_presented_in_response_order_unsorted :
    ((populateServerGroupDropdown unsortedServersEnv pageWithSubscription).fst.serverGroupDropdown.values.map
      CategoryValue.displayName = [("b"), ("A")]) ∧
    ¬ List.Pairwise (fun a b => nameLE a b = true) [("b"), ("A")] := by
  decide

/-- C4 amended: subscriptions are sorted case-insensitively ascending by
subscription name (the label shown is name - id); servers are presented
in the order of the REST response and accounts in the order the
credential provider returned them - neither is sorted. -/
theorem sortOrder_subscriptions_sorted_servers_accounts_in_order :
    (∀ env s av subs, s.azureAccountsDropdown.value = some av →
      env.subscriptions = some subs → subs ≠ [] →
      ∃ sorted, List.Sorted subRel sorted ∧ sorted.Perm subs ∧
        (populateAzureSubscriptionsDropdown env s).fst.azureSubscriptionsDropdown.values
          = sorted.map subscriptionCategoryValue) ∧
    (∀ env s v, s.azureSubscriptionsDropdown.value = some v →
      v.displayName ≠ "" → env.serverResponse ≠ [] →
      (populateServerGroupDropdown env s).fst.serverGroupDropdown.values
        = env.serverResponse.map serverCategoryValue) ∧
    (∀ env s, env.accounts ≠ [] →
      (populateAzureAccountsDropdown env s).fst.azureAccountsDropdown.values
        = env.accounts.map accountCategoryValue) := by
  refine ⟨?_, ?_, ?_⟩
  · intro env s av subs hacct hsubs hne
    cases subs with
    | nil => exact absurd rfl hne
    | cons sub0 subrest =>
      refine ⟨List.insertionSort subRel (sub0 :: subrest),
        List.sorted_insertionSort subRel (sub0 :: subrest),
        List.perm_insertionSort subRel (sub0 :: subrest), ?_⟩
      simp only [populateAzureSubscriptionsDropdown, hacct, hsubs]
      split
      · rw [populateServer_subsDropdown]; rfl
      · rw [populateServer_subsDropdown]; rfl
  · intro env s v hval hdn hne
    simp only [populateServerGroupDropdown, hval]
    rw [if_neg hdn]
    cases hresp : env.serverResponse with
    | nil => exact absurd hresp hne
    | cons v0 vrest => rfl
  · intro env s hne
    cases ha : env.accounts with
    | nil => exact absurd ha hne
    | cons a0 arest =>
      simp only [populateAzureAccountsDropdown, ha]
      rw [populateSubs_acctsDropdown]; rfl

/-- The subscription pair of the sort scenario of the spec. -/
def devSubscriptionList : List Subscription :=
  [{ name := ("Dev"), id := ("idD"), tenant := ("t") },
   { name := ("dev-2"), id := ("id2"), tenant := ("t") }]

/-- An environment answering two subscriptions and nothing else. -/
def devSubsEnv : Env :=
  { accounts := [], subscriptions := some devSubscriptionList,
    serverResponse := [], token := ("tok") }

/-- An environment whose credential store has one account. -/
def oneAccountEnv : Env :=
  { accounts := [{ displayInfo := { displayName := ("accA") } }],
    subscriptions := none, serverResponse := [], token := ("tok") }

/-- Witness for the C4 amended theorem at the concrete fixtures. -/
theorem sortOrder_subscriptions_sorted_servers_accounts_in_order_witness :
    (∃ sorted, List.Sorted subRel sorted ∧ sorted.Perm devSubscriptionList ∧
      (populateAzureSubscriptionsDropdown devSubsEnv pageWithAccount).fst.azureSubscriptionsDropdown.values
        = sorted.map subscriptionCategoryValue) ∧
    ((populateServerGroupDropdown unsortedServersEnv pageWithSubscription).fst.serverGroupDropdown.values
      = unsortedServersEnv.serverResponse.map serverCategoryValue) ∧
    ((populateAzureAccountsDropdown oneAccountEnv basePage).fst.azureAccountsDropdown.values
      = oneAccountEnv.accounts.map accountCategoryValue) :=
  ⟨sortOrder_subscriptions_sorted_servers_accounts_in_order.1 devSubsEnv pageWithAccount
    { displayName := ("accA"), name := ("accA") } devSubscriptionList rfl rfl (by decide),
   sortOrder_subscriptions_sorted_servers_accounts_in_order.2.1 unsortedServersEnv
    pageWithSubscription { displayName := ("sub1 - sid1"), name := ("sid1") } rfl
    (by decide) (by decide),
   sortOrder_subscriptions_sorted_servers_accounts_in_order.2.2 oneAccountEnv basePage
    (by decide)⟩
